import Mathlib

/-
Shallow embedding of the DeepShare Story Protocol IP registration server
(src/unnamed/part_000).  The request handler is translated directly from the
JavaScript; every external effect (IPFS gateway fetch, Pinata pinning upload,
chain transactions, Supabase REST calls) is modelled by an environment record
carrying the outcome each call would produce, and the handler returns, next
to its HTTP response, the ordered trace of external calls it issued.
Library functions of the Node runtime (crypto SHA-256, JSON serialization,
viem parseEther, Date.now) are opaque fields of the environment: the
theorems speak about which inputs the program feeds them.
-/

namespace StoryServer

/- JavaScript values, as delivered by a parsed JSON body or a fetched JSON
payload.  JSON has no NaN, so numbers are plain integers here; non-integer
depth payloads play no role in the handler beyond truthiness and echoing. -/
inductive JVal where
  | null
  | bool (b : Bool)
  | num (v : Int)
  | str (s : String)
  | arr (xs : List JVal)
  | obj (fs : List (String × JVal))

/- JavaScript numbers as produced by parseInt: an integer or NaN. -/
inductive JsNum where
  | num (v : Int)
  | nan
deriving DecidableEq, Repr

/- JavaScript comparison of a parseInt result with an integer constant:
any comparison with NaN is false. -/
def jsLtInt : JsNum → Int → Bool
  | .nan, _ => false
  | .num v, c => v < c

def jsGtInt : JsNum → Int → Bool
  | .nan, _ => false
  | .num v, c => v > c

/- Truthiness of an optional string field (absent and the empty string are
falsy, as in JavaScript). -/
def truthyS : Option String → Bool
  | none => false
  | some s => s ≠ ""

/- Truthiness of a JSON value. -/
def jvTruthy : JVal → Bool
  | .null => false
  | .bool b => b
  | .num v => v ≠ 0
  | .str s => s ≠ ""
  | .arr _ => true
  | .obj _ => true

def jvTruthyO : Option JVal → Bool
  | none => false
  | some v => jvTruthy v

/- Property access on a JSON value: missing keys and non-objects give
undefined (none). -/
def jvGet (v : JVal) (k : String) : Option JVal :=
  match v with
  | .obj fs => fs.lookup k
  | _ => none

/- JavaScript parseInt with no radix argument: skip leading whitespace, an
optional sign, a 0x/0X prefix switches to hexadecimal, then the longest
run of digits; no digit at all gives NaN. -/
def isJsWs (c : Char) : Bool :=
  c = ' ' || c = '\t' || c = '\n' || c = '\r'

def decDigitVal : Char → Option Nat :=
  fun c => if 48 ≤ c.toNat ∧ c.toNat ≤ 57 then some (c.toNat - 48) else none

def hexDigitVal : Char → Option Nat :=
  fun c =>
    if 48 ≤ c.toNat ∧ c.toNat ≤ 57 then some (c.toNat - 48)
    else if 97 ≤ c.toNat ∧ c.toNat ≤ 102 then some (c.toNat - 87)
    else if 65 ≤ c.toNat ∧ c.toNat ≤ 70 then some (c.toNat - 55)
    else none

def takeDigits (f : Char → Option Nat) (radix : Nat) :
    List Char → Option Nat → Option Nat
  | [], acc => acc
  | c :: cs, acc =>
    match f c with
    | some d => takeDigits f radix cs (some ((acc.getD 0) * radix + d))
    | none => acc

def parseIntJs (s : String) : JsNum :=
  let cs := s.toList.dropWhile isJsWs
  let signed : Bool × List Char :=
    match cs with
    | '-' :: rest => (true, rest)
    | '+' :: rest => (false, rest)
    | _ => (false, cs)
  let body : (Char → Option Nat) × Nat × List Char :=
    match signed.2 with
    | '0' :: 'x' :: rest => (hexDigitVal, 16, rest)
    | '0' :: 'X' :: rest => (hexDigitVal, 16, rest)
    | _ => (decDigitVal, 10, signed.2)
  match takeDigits body.1 body.2.1 body.2.2 none with
  | none => .nan
  | some n => .num (if signed.1 then -(n : Int) else (n : Int))

/- The JSON body of a POST /register-ip request (destructured at the top of
the handler).  commercialRevShare is kept as the string parseInt coerces it
to; mintingFee as the string handed to parseEther. -/
structure Request where
  imageCid : Option String
  metadataCid : Option String
  depthMetadata : Option JVal
  deviceAddress : Option String
  mintingFee : Option String
  commercialRevShare : Option String

/- A creator entry of the Story Protocol IP metadata. -/
structure Creator where
  name : String
  address : String
  contributionPercent : Nat
deriving DecidableEq, Repr

/- The object handed to storyClient.ipAsset.generateIpMetadata
(lines 327-351 of the source). -/
structure IpMetadata where
  title : String
  description : String
  createdAt : String
  creators : List Creator
  image : String
  imageHash : String
  mediaUrl : String
  mediaHash : String
  mediaType : String
  attributes : List (String × String)
deriving DecidableEq, Repr

/- The OpenSea style NFT metadata object (lines 358-374). -/
structure NftMetadata where
  name : String
  description : String
  image : String
  animation_url : Option String
  external_url : String
  attributes : List (String × String)
deriving DecidableEq, Repr

/- The arguments the handler binds into the registerIpAsset chain call
(lines 386-404): collection address, license terms parameters and the two
metadata URIs with their hashes. -/
structure RegisterArgs where
  spgNftContract : String
  revShare : JsNum
  mintingFeeWei : Int
  ipMetadataURI : String
  ipMetadataHash : String
  nftMetadataURI : String
  nftMetadataHash : String
deriving DecidableEq, Repr

/- The fields of the registerIpAsset response the handler reads. -/
structure RegResult where
  ipId : String
  tokenId : Option Nat
  licenseTermsIds : Option (List Nat)
  txHash : String
deriving DecidableEq, Repr

/- A row of the images table as selected by the Supabase check query. -/
structure CheckRow where
  wallet_address : String
  image_cid : String
  metadata_cid : String
deriving DecidableEq, Repr

/- A row as selected by the Supabase verification query. -/
structure VRow where
  image_cid : String
  ip : String
  tx_hash : String
deriving DecidableEq, Repr

/- One external call, in the order the handler issues them. -/
inductive ExtCall where
  | fetch (url : String)
  | publish (body : String)
  | chainCreateCollection
  | chainRegister (args : RegisterArgs)
  | recordGet (url : String)
  | recordPatch (url : String)
deriving DecidableEq, Repr

/- Configuration and per-call outcomes of the Supabase record store. -/
structure SupabaseEnv where
  url : Option String
  key : Option String
  checkResult : Except String (List CheckRow)
  patchResult : Except String Unit
  verifyResult : Except String (List VRow)

/- The environment of one handler run: configuration, the opaque library
functions, the wall clock, and the outcome of each external call in the
order the run would issue it. -/
structure Env where
  gateway : String
  defaultMintingFee : String
  defaultRevShare : JsNum
  sha256hex : String → String
  parseEther : String → Except String Int
  stringifyIp : IpMetadata → String
  stringifyNft : NftMetadata → String
  nowMs : Nat
  nowMs2 : Nat
  nowIso : String
  fetchResult : Except String JVal
  upload1 : Except String String
  upload2 : Except String String
  createCollection : Except String (String × String)
  registerResult : Except String RegResult
  supabase : SupabaseEnv

/- fetchFromIPFS (lines 100-110): one gateway GET; a failure is rethrown
with the wrapping message. -/
def fetchFromIPFS (env : Env) (cid : String) :
    Except String JVal × List ExtCall :=
  (match env.fetchResult with
   | .ok v => .ok v
   | .error e => .error ("Failed to fetch CID " ++ cid ++ " from IPFS: " ++ e),
   [.fetch (env.gateway ++ "/ipfs/" ++ cid)])

/- uploadJSONToIPFS (lines 113-135): one pinning POST carrying the
serialized document; a failure is rethrown with the wrapping message. -/
def uploadJSONToIPFS (result : Except String String) (body : String) :
    Except String String × List ExtCall :=
  (match result with
   | .ok h => .ok h
   | .error e => .error ("Failed to upload JSON to IPFS: " ++ e),
   [.publish body])

/- The body of the try block of updateSupabaseWithIPData (lines 150-217):
check query, patch, verification read; any axios failure propagates as an
error here. -/
def updateSupabaseBody (s : SupabaseEnv) (imageCid ipUrl txHash : String) :
    Except String (Option VRow) × List ExtCall :=
  let baseUrl := s.url.getD "" ++ "/rest/v1/images"
  let checkUrl := baseUrl ++ "?image_cid=eq." ++ imageCid ++
    "&select=wallet_address,image_cid,metadata_cid"
  match s.checkResult with
  | .error e => (.error e, [.recordGet checkUrl])
  | .ok rows =>
    if rows.isEmpty then
      (.ok none, [.recordGet checkUrl])
    else
      let updateUrl := baseUrl ++ "?image_cid=eq." ++ imageCid
      match s.patchResult with
      | .error e => (.error e, [.recordGet checkUrl, .recordPatch updateUrl])
      | .ok _ =>
        let verifyUrl := baseUrl ++ "?image_cid=eq." ++ imageCid ++
          "&select=image_cid,ip,tx_hash"
        match s.verifyResult with
        | .error e =>
          (.error e,
           [.recordGet checkUrl, .recordPatch updateUrl, .recordGet verifyUrl])
        | .ok vrows =>
          match vrows with
          | [] =>
            (.ok none,
             [.recordGet checkUrl, .recordPatch updateUrl, .recordGet verifyUrl])
          | row :: _ =>
            if row.ip = ipUrl ∧ row.tx_hash = txHash then
              (.ok (some row),
               [.recordGet checkUrl, .recordPatch updateUrl, .recordGet verifyUrl])
            else
              (.ok none,
               [.recordGet checkUrl, .recordPatch updateUrl, .recordGet verifyUrl])

/- updateSupabaseWithIPData (lines 138-228): skip when credentials are not
configured; otherwise run the body and swallow any error (the catch block
logs and returns null). -/
def updateSupabaseWithIPData (s : SupabaseEnv) (imageCid ipUrl txHash : String) :
    Except String (Option VRow) × List ExtCall :=
  if !truthyS s.url || !truthyS s.key then
    (.ok none, [])
  else
    match updateSupabaseBody s imageCid ipUrl txHash with
    | (.ok v, t) => (.ok v, t)
    | (.error _, t) => (.ok none, t)

/- getOrCreateCollection (lines 231-253).  The process-wide cache
spgNftContract is passed and returned explicitly; the Boolean trace records
whether a creation transaction was issued. -/
def getOrCreateCollection (env : Env) (st : Option String) :
    Except String String × Option String × List ExtCall :=
  match st with
  | some c => (.ok c, some c, [])
  | none =>
    match env.createCollection with
    | .ok (addr, _tx) => (.ok addr, some addr, [.chainCreateCollection])
    | .error e => (.error e, none, [.chainCreateCollection])

/- Resolution of the depth metadata (lines 276-295).  The fetch happens only
when metadataCid is truthy and depthMetadata is falsy; a fetch failure, or
a null payload (property access on null raises inside the same try block),
falls back to the minimal placeholder object; a falsy result is replaced by
the note object. -/
def resolveDepthStep (env : Env) (req : Request) : Option JVal × List ExtCall :=
  if truthyS req.metadataCid && !jvTruthyO req.depthMetadata then
    let cid := req.metadataCid.getD ""
    let f := fetchFromIPFS env cid
    match f.1 with
    | .ok fullMetadata =>
      ((match fullMetadata with
        | .null => some (.obj [("metadataCid", .str cid)])
        | _ =>
          if jvTruthyO (jvGet fullMetadata "data") &&
              jvTruthyO ((jvGet fullMetadata "data").bind (fun d => jvGet d "depthData")) then
            (jvGet fullMetadata "data").bind (fun d => jvGet d "depthData")
          else
            some fullMetadata),
       f.2)
    | .error _ => (some (.obj [("metadataCid", .str cid)]), f.2)
  else
    (req.depthMetadata, [])

def resolveDepth (env : Env) (req : Request) : JVal × List ExtCall :=
  let step := resolveDepthStep env req
  (if !jvTruthyO step.1 then .obj [("note", .str "No depth metadata provided")]
   else step.1.getD .null,
   step.2)

/- The string handed to parseEther (line 298): the request fee when truthy,
else the configured default. -/
def feeInput (env : Env) (req : Request) : String :=
  if truthyS req.mintingFee then req.mintingFee.getD "" else env.defaultMintingFee

/- The resolved revenue share (line 299): parseInt of the request value when
the field is present (not undefined), else the configured default. -/
def resolveRevShare (env : Env) (req : Request) : JsNum :=
  match req.commercialRevShare with
  | some s => parseIntJs s
  | none => env.defaultRevShare

/- The object handed to generateIpMetadata (lines 327-351), as a function of
the inputs it reads. -/
def buildIpMetadata (env : Env) (img : String) (mcid : Option String)
    (dev : String) : IpMetadata :=
  let imageHttpUrl := "https://gateway.pinata.cloud/ipfs/" ++ img
  let metadataHttpUrl :=
    if truthyS mcid then "https://gateway.pinata.cloud/ipfs/" ++ mcid.getD ""
    else imageHttpUrl
  { title := "DeepShare Evidence - " ++ toString env.nowMs
    description :=
      if truthyS mcid then
        "Evidence capture with depth mapping. Full depth data stored at: " ++
          metadataHttpUrl
      else
        "Evidence capture. Device: " ++ dev
    createdAt := toString (env.nowMs / 1000)
    creators := [{ name := "DeepShare Device", address := dev,
                   contributionPercent := 100 }]
    image := "ipfs://" ++ img
    imageHash := "0x" ++ env.sha256hex img
    mediaUrl :=
      if truthyS mcid then "ipfs://" ++ mcid.getD "" else "ipfs://" ++ img
    mediaHash :=
      if truthyS mcid then "0x" ++ env.sha256hex (mcid.getD "")
      else "0x" ++ env.sha256hex img
    mediaType := if truthyS mcid then "application/json" else "image/jpeg"
    attributes :=
      [("Platform", "DeepShare"),
       ("Type", "Evidence with Depth Mapping"),
       ("Device", dev),
       ("ImageCID", img),
       ("MetadataCID", if truthyS mcid then mcid.getD "" else "N/A"),
       ("DepthDataURL", if truthyS mcid then metadataHttpUrl else "N/A")] }

/- The NFT metadata object (lines 358-374). -/
def buildNftMetadata (env : Env) (img : String) (mcid : Option String)
    (dev : String) : NftMetadata :=
  let imageHttpUrl := "https://gateway.pinata.cloud/ipfs/" ++ img
  let metadataHttpUrl :=
    if truthyS mcid then "https://gateway.pinata.cloud/ipfs/" ++ mcid.getD ""
    else imageHttpUrl
  { name := "DeepShare Evidence " ++ toString env.nowMs2
    description :=
      if truthyS mcid then
        "Evidence captured with depth mapping technology. Full depth data available in metadata."
      else
        "Evidence captured with depth mapping technology"
    image := "ipfs://" ++ img
    animation_url :=
      if truthyS mcid then some ("ipfs://" ++ mcid.getD "") else none
    external_url := if truthyS mcid then metadataHttpUrl else imageHttpUrl
    attributes :=
      [("Platform", "DeepShare"),
       ("Device", dev),
       ("Timestamp", env.nowIso),
       ("Has Depth Data", if truthyS mcid then "Yes" else "No"),
       ("Image CID", img),
       ("Metadata CID", if truthyS mcid then mcid.getD "" else "N/A")] }

/- The data object of the success response (lines 416-435).  The JavaScript
reports mintingFee divided by 1e18 as a floating point display value; the
raw wei amount is carried here instead. -/
structure SuccessData where
  ipId : String
  tokenId : Option String
  licenseTermsIds : Option (List String)
  txHash : String
  nftContract : String
  imageUrl : String
  imageCid : String
  metadataUrl : String
  metadataCid : Option String
  depthMetadata : JVal
  mintingFeeWei : Int
  commercialRevShare : JsNum
  explorerUrl : String
  transactionUrl : String

/- The HTTP response of the handler: the two 400 rejections, the 500 of the
surrounding catch block, or the success payload. -/
inductive Response where
  | missingFields
  | revShareOutOfRange (provided : JsNum)
  | serverError (msg : String)
  | success (d : SuccessData)

/- The registerIpAsset argument record of one run (lines 386-404), given
the two upload results. -/
def mkRegisterArgs (env : Env) (req : Request) (img dev : String) (fee : Int)
    (rs : JsNum) (nc : String) (ipIpfsHash nftIpfsHash : String) :
    RegisterArgs :=
  { spgNftContract := nc
    revShare := rs
    mintingFeeWei := fee
    ipMetadataURI := "https://ipfs.io/ipfs/" ++ ipIpfsHash
    ipMetadataHash := "0x" ++ env.sha256hex
      (env.stringifyIp (buildIpMetadata env img req.metadataCid dev))
    nftMetadataURI := "https://ipfs.io/ipfs/" ++ nftIpfsHash
    nftMetadataHash := "0x" ++ env.sha256hex
      (env.stringifyNft (buildNftMetadata env img req.metadataCid dev)) }

/- The data object of the success response (lines 416-435). -/
def mkSuccessData (req : Request) (img : String) (fdm : JVal)
    (fee : Int) (rs : JsNum) (nc : String) (r : RegResult) : SuccessData :=
  { ipId := r.ipId
    tokenId := r.tokenId.map toString
    licenseTermsIds := r.licenseTermsIds.map (fun l => l.map toString)
    txHash := r.txHash
    nftContract := nc
    imageUrl := "https://gateway.pinata.cloud/ipfs/" ++ img
    imageCid := img
    metadataUrl :=
      if truthyS req.metadataCid then
        "https://gateway.pinata.cloud/ipfs/" ++ req.metadataCid.getD ""
      else "https://gateway.pinata.cloud/ipfs/" ++ img
    metadataCid := if truthyS req.metadataCid then req.metadataCid else none
    depthMetadata := fdm
    mintingFeeWei := fee
    commercialRevShare := rs
    explorerUrl := "https://aeneid.explorer.story.foundation/ipa/" ++ r.ipId
    transactionUrl := "https://aeneid.storyscan.io/tx/" ++ r.txHash }

/- The tail of the pipeline after validation and collection provisioning
(lines 317-435): build and publish the two documents, register on chain,
reconcile the record store, respond. -/
def registerCore (env : Env) (req : Request) (img dev : String)
    (finalDepthMetadata : JVal) (fee : Int) (rs : JsNum)
    (nftContract : String) (st2 : Option String) (t0 : List ExtCall) :
    Response × Option String × List ExtCall :=
  let ipMeta := buildIpMetadata env img req.metadataCid dev
  let ipBody := env.stringifyIp ipMeta
  let u1 := uploadJSONToIPFS env.upload1 ipBody
  match u1.1 with
  | .error e => (.serverError e, st2, t0 ++ u1.2)
  | .ok ipIpfsHash =>
    let nftMeta := buildNftMetadata env img req.metadataCid dev
    let nftBody := env.stringifyNft nftMeta
    let u2 := uploadJSONToIPFS env.upload2 nftBody
    match u2.1 with
    | .error e => (.serverError e, st2, t0 ++ u1.2 ++ u2.2)
    | .ok nftIpfsHash =>
      let args := mkRegisterArgs env req img dev fee rs nftContract
        ipIpfsHash nftIpfsHash
      let t5 : List ExtCall := [.chainRegister args]
      match env.registerResult with
      | .error e => (.serverError e, st2, t0 ++ u1.2 ++ u2.2 ++ t5)
      | .ok r =>
        let ipExplorerUrl :=
          "https://aeneid.explorer.story.foundation/ipa/" ++ r.ipId
        let su := updateSupabaseWithIPData env.supabase img ipExplorerUrl r.txHash
        match su.1 with
        | .error e => (.serverError e, st2, t0 ++ u1.2 ++ u2.2 ++ t5 ++ su.2)
        | .ok _row =>
          (.success (mkSuccessData req img finalDepthMetadata fee rs
             nftContract r),
           st2, t0 ++ u1.2 ++ u2.2 ++ t5 ++ su.2)

/- The POST /register-ip handler (lines 256-445), as a function of the
environment, the process-wide collection cache and the request.  Returns
the response, the updated cache and the ordered trace of external calls. -/
def registerIp (env : Env) (st : Option String) (req : Request) :
    Response × Option String × List ExtCall :=
  if !truthyS req.imageCid || !truthyS req.deviceAddress then
    (.missingFields, st, [])
  else
    match env.parseEther (feeInput env req) with
    | .error e => (.serverError e, st, (resolveDepth env req).2)
    | .ok fee =>
      if jsLtInt (resolveRevShare env req) 0 ||
          jsGtInt (resolveRevShare env req) 100 then
        (.revShareOutOfRange (resolveRevShare env req), st, (resolveDepth env req).2)
      else
        match (getOrCreateCollection env st).1 with
        | .error e =>
          (.serverError e, (getOrCreateCollection env st).2.1,
           (resolveDepth env req).2 ++ (getOrCreateCollection env st).2.2)
        | .ok nftContract =>
          registerCore env req (req.imageCid.getD "") (req.deviceAddress.getD "")
            (resolveDepth env req).1 fee (resolveRevShare env req) nftContract
            (getOrCreateCollection env st).2.1
            ((resolveDepth env req).2 ++ (getOrCreateCollection env st).2.2)

/- Projections used to state concrete facts about responses without needing
decidable equality of JSON values. -/
def Response.isSuccess : Response → Bool
  | .success _ => true
  | _ => false

def Response.isRevShareReject : Response → Bool
  | .revShareOutOfRange _ => true
  | _ => false

def Response.rejectValue : Response → Option JsNum
  | .revShareOutOfRange v => some v
  | _ => none

def respDepth : Response → Option JVal
  | .success d => some d.depthMetadata
  | _ => none

def respRevShare : Response → Option JsNum
  | .success d => some d.commercialRevShare
  | _ => none

def respNftContract : Response → Option String
  | .success d => some d.nftContract
  | _ => none

def respIpId : Response → Option String
  | .success d => some d.ipId
  | _ => none

def respTxHash : Response → Option String
  | .success d => some d.txHash
  | _ => none

def respExplorerUrl : Response → Option String
  | .success d => some d.explorerUrl
  | _ => none

/- Classification of external calls, for stating trace properties. -/
def ExtCall.isFetch : ExtCall → Bool
  | .fetch _ => true
  | _ => false

def ExtCall.isPublish : ExtCall → Bool
  | .publish _ => true
  | _ => false

def ExtCall.isCreate : ExtCall → Bool
  | .chainCreateCollection => true
  | _ => false

def ExtCall.isChainReg : ExtCall → Bool
  | .chainRegister _ => true
  | _ => false

def ExtCall.isRecord : ExtCall → Bool
  | .recordGet _ => true
  | .recordPatch _ => true
  | _ => false

/- Number of collection creation transactions in a trace. -/
def countCreate (t : List ExtCall) : Nat :=
  t.countP (fun c => c.isCreate)

/- A concrete environment used to instantiate the theorems below on
explicit inputs.  The opaque library functions are given simple injective
stand-ins so that runs evaluate to concrete values. -/
def cEnv : Env :=
  { gateway := "https://gateway.pinata.cloud"
    defaultMintingFee := "0.1"
    defaultRevShare := .num 10
    sha256hex := fun s => "h" ++ s
    stringifyIp := fun d => "IP:" ++ d.title
    stringifyNft := fun d => "NFT:" ++ d.name
    parseEther := fun _ => .ok 100000000000000000
    nowMs := 1700000000000
    nowMs2 := 1700000000001
    nowIso := "2023-11-14T22:13:20.000Z"
    fetchResult := .ok (.obj [("data", .obj [("depthData", .obj [("points", .num 3)])])])
    upload1 := .ok "QmIpMeta"
    upload2 := .ok "QmNftMeta"
    createCollection := .ok ("0xCollection", "0xtxc")
    registerResult := .ok { ipId := "0xIP", tokenId := some 1,
                            licenseTermsIds := some [5], txHash := "0xTX" }
    supabase := { url := none, key := none, checkResult := .ok [],
                  patchResult := .ok (), verifyResult := .ok [] } }

/- Concrete requests used by the claim instances below. -/
def reqMissing : Request :=
  { imageCid := none, metadataCid := none, depthMetadata := none,
    deviceAddress := some "0xABC", mintingFee := none,
    commercialRevShare := none }

def reqC1 : Request :=
  { imageCid := some "Qimg1", metadataCid := some "Qmeta1",
    depthMetadata := none, deviceAddress := some "0xABC",
    mintingFee := none, commercialRevShare := some "101" }

def reqC10 : Request :=
  { imageCid := some "Qimg1", metadataCid := none, depthMetadata := none,
    deviceAddress := some "0xABC", mintingFee := none,
    commercialRevShare := some "abc" }

/- Further concrete instances for the claims below. -/
def regR : RegResult :=
  { ipId := "0xIP", tokenId := some 1, licenseTermsIds := some [5],
    txHash := "0xTX" }

def reqOk : Request :=
  { imageCid := some "Qimg1", metadataCid := none, depthMetadata := none,
    deviceAddress := some "0xABC", mintingFee := some "0.2",
    commercialRevShare := some "15" }

def argsOk : RegisterArgs :=
  mkRegisterArgs cEnv reqOk "Qimg1" "0xABC" 100000000000000000
    (JsNum.num 15) "0xCollection" "QmIpMeta" "QmNftMeta"

def reqC3 : Request :=
  { imageCid := some "Qimg1", metadataCid := some "Qmeta1",
    depthMetadata := some (.obj [("inline", .num 1)]),
    deviceAddress := some "0xABC", mintingFee := none,
    commercialRevShare := some "15" }

def envC4 : Env := { cEnv with upload1 := .error "boom" }

def reqNeg1 : Request :=
  { imageCid := some "Qimg1", metadataCid := none, depthMetadata := none,
    deviceAddress := some "0xABC", mintingFee := none,
    commercialRevShare := some "-1" }

def req101 : Request :=
  { imageCid := some "Qimg1", metadataCid := none, depthMetadata := none,
    deviceAddress := some "0xABC", mintingFee := none,
    commercialRevShare := some "101" }

def reqZero : Request :=
  { imageCid := some "Qimg1", metadataCid := none, depthMetadata := none,
    deviceAddress := some "0xABC", mintingFee := none,
    commercialRevShare := some "0" }

def reqHundred : Request :=
  { imageCid := some "Qimg1", metadataCid := none, depthMetadata := none,
    deviceAddress := some "0xABC", mintingFee := none,
    commercialRevShare := some "100" }

def envC7 : Env := { cEnv with fetchResult := .error "gateway down" }

def reqC7 : Request :=
  { imageCid := some "Qimg1", metadataCid := some "Qmeta1",
    depthMetadata := none, deviceAddress := some "0xABC",
    mintingFee := none, commercialRevShare := some "15" }

def sd1 : SuccessData :=
  mkSuccessData reqOk "Qimg1"
    (JVal.obj [("note", JVal.str "No depth metadata provided")])
    100000000000000000 (JsNum.num 15) "0xCollection" regR

/- Every external call of the depth resolution step is a gateway fetch. -/
theorem resolveDepth_trace (env : Env) (req : Request) :
    ∀ e ∈ (resolveDepth env req).2, e.isFetch = true := by
  intro e he
  have he2 : e ∈ (resolveDepthStep env req).2 := he
  unfold resolveDepthStep fetchFromIPFS at he2
  repeat' split at he2
  all_goals simp_all [ExtCall.isFetch]

/- Every external call of the try block of the record reconciler is a
record store call. -/
theorem updateSupabaseBody_trace (s : SupabaseEnv) (a b c : String) :
    ∀ e ∈ (updateSupabaseBody s a b c).2, e.isRecord = true := by
  intro e he
  unfold updateSupabaseBody at he
  repeat' split at he
  all_goals
    simp only [List.mem_cons, List.mem_singleton, List.not_mem_nil, or_false] at he
  all_goals try casesm* _ ∨ _
  all_goals simp_all [ExtCall.isRecord]

/- The record reconciler always returns a value: every error raised inside
its try block is swallowed by the catch block. -/
theorem updateSupabase_never_raises (s : SupabaseEnv) (a b c : String) :
    ∃ v, (updateSupabaseWithIPData s a b c).1 = Except.ok v := by
  unfold updateSupabaseWithIPData
  split
  · exact ⟨none, rfl⟩
  · rcases h : updateSupabaseBody s a b c with ⟨r, t⟩
    cases r <;> exact ⟨_, rfl⟩

/- Every external call of the record reconciler is a record store call. -/
theorem updateSupabase_trace (s : SupabaseEnv) (a b c : String) :
    ∀ e ∈ (updateSupabaseWithIPData s a b c).2, e.isRecord = true := by
  intro e he
  unfold updateSupabaseWithIPData at he
  split at he
  · simp at he
  · rcases h : updateSupabaseBody s a b c with ⟨r, t⟩
    rw [h] at he
    have het : e ∈ t := by cases r <;> simpa using he
    exact updateSupabaseBody_trace s a b c e (by rw [h]; exact het)

/- The record reconciler issues no creation transaction. -/
theorem updateSupabase_countCreate (s : SupabaseEnv) (a b c : String) :
    countCreate (updateSupabaseWithIPData s a b c).2 = 0 := by
  rw [countCreate, List.countP_eq_zero]
  intro e he
  have := updateSupabase_trace s a b c e he
  cases e <;> simp_all [ExtCall.isRecord, ExtCall.isCreate]

theorem countCreate_append (a b : List ExtCall) :
    countCreate (a ++ b) = countCreate a + countCreate b :=
  List.countP_append _ _ _

theorem countCreate_publish (b : String) :
    countCreate [ExtCall.publish b] = 0 := rfl

theorem countCreate_chainReg (a : RegisterArgs) :
    countCreate [ExtCall.chainRegister a] = 0 := rfl

theorem countCreate_nil : countCreate [] = 0 := rfl

theorem countCreate_cons (e : ExtCall) (l : List ExtCall) :
    countCreate (e :: l) = countCreate l + (if e.isCreate then 1 else 0) :=
  List.countP_cons _ _ _

/- The core pipeline never touches the collection cache after provisioning. -/
theorem registerCore_st (env : Env) (req : Request) (img dev : String)
    (fdm : JVal) (fee : Int) (rs : JsNum) (nc : String) (st2 : Option String)
    (t0 : List ExtCall) :
    (registerCore env req img dev fdm fee rs nc st2 t0).2.1 = st2 := by
  unfold registerCore uploadJSONToIPFS
  dsimp only
  repeat' split
  all_goals rfl

/- The core pipeline never answers with a validation rejection. -/
theorem registerCore_no_reject (env : Env) (req : Request) (img dev : String)
    (fdm : JVal) (fee : Int) (rs : JsNum) (nc : String) (st2 : Option String)
    (t0 : List ExtCall) :
    (registerCore env req img dev fdm fee rs nc st2 t0).1.isRevShareReject = false ∧
    (registerCore env req img dev fdm fee rs nc st2 t0).1 ≠ Response.missingFields := by
  unfold registerCore uploadJSONToIPFS
  dsimp only
  repeat' split
  all_goals simp [Response.isRevShareReject]

/- The core pipeline issues no collection creation call of its own. -/
theorem registerCore_countCreate (env : Env) (req : Request) (img dev : String)
    (fdm : JVal) (fee : Int) (rs : JsNum) (nc : String) (st2 : Option String)
    (t0 : List ExtCall) :
    countCreate (registerCore env req img dev fdm fee rs nc st2 t0).2.2 =
      countCreate t0 := by
  unfold registerCore uploadJSONToIPFS
  dsimp only
  repeat' split
  all_goals
    simp [countCreate_append, countCreate_publish, countCreate_chainReg,
      countCreate_cons, countCreate_nil, ExtCall.isCreate,
      updateSupabase_countCreate]

/- Provisioning with a cached handle is a pure cache hit. -/
theorem getOrCreateCollection_cached (env : Env) (c : String) :
    getOrCreateCollection env (some c) = (.ok c, some c, []) := rfl

/- Provisioning issues at most one creation transaction. -/
theorem getOrCreateCollection_trace (env : Env) (st : Option String) :
    (getOrCreateCollection env st).2.2 = [] ∨
      (getOrCreateCollection env st).2.2 = [ExtCall.chainCreateCollection] := by
  unfold getOrCreateCollection
  cases st with
  | some c => exact Or.inl rfl
  | none => cases env.createCollection <;> simp

/- A trace of gateway fetches contains no creation transaction. -/
theorem countCreate_fetch_zero (l : List ExtCall)
    (h : ∀ e ∈ l, e.isFetch = true) : countCreate l = 0 := by
  rw [countCreate, List.countP_eq_zero]
  intro e he
  have := h e he
  cases e <;> simp_all [ExtCall.isFetch, ExtCall.isCreate]

/- A successful provisioning result is exactly what is cached. -/
theorem getOrCreateCollection_ok_state (env : Env) (st : Option String)
    (nc : String) (h : (getOrCreateCollection env st).1 = Except.ok nc) :
    (getOrCreateCollection env st).2.1 = some nc := by
  cases st with
  | some c =>
    have hgc : getOrCreateCollection env (some c) =
        (Except.ok c, some c, []) := rfl
    rw [hgc] at h ⊢
    simp at h
    simp [h]
  | none =>
    cases hc : env.createCollection with
    | ok p =>
      rcases p with ⟨addr, tx⟩
      have hgc : getOrCreateCollection env none =
          (Except.ok addr, some addr, [ExtCall.chainCreateCollection]) := by
        unfold getOrCreateCollection
        rw [hc]
      rw [hgc] at h ⊢
      simp at h
      simp [h]
    | error e =>
      have hgc : getOrCreateCollection env none =
          (Except.error e, none, [ExtCall.chainCreateCollection]) := by
        unfold getOrCreateCollection
        rw [hc]
      rw [hgc] at h
      simp at h

/- Inversion of the core pipeline at a chain registration call: the call
can only appear after both uploads succeeded, and its arguments are the
registration arguments of the run. -/
theorem registerCore_chainReg_inv (env : Env) (req : Request) (img dev : String)
    (fdm : JVal) (fee : Int) (rs : JsNum) (nc : String) (st2 : Option String)
    (t0 : List ExtCall) (args : RegisterArgs)
    (ht0 : ∀ e ∈ t0, e.isChainReg = false)
    (hin : ExtCall.chainRegister args ∈
      (registerCore env req img dev fdm fee rs nc st2 t0).2.2) :
    ∃ h1 h2, env.upload1 = Except.ok h1 ∧ env.upload2 = Except.ok h2 ∧
      args = mkRegisterArgs env req img dev fee rs nc h1 h2 := by
  cases h1 : env.upload1 with
  | error e1 =>
    simp only [registerCore, uploadJSONToIPFS, h1] at hin
    simp at hin
    exact absurd (ht0 _ hin) (by simp [ExtCall.isChainReg])
  | ok v1 =>
    cases h2 : env.upload2 with
    | error e2 =>
      simp only [registerCore, uploadJSONToIPFS, h1, h2] at hin
      simp at hin
      exact absurd (ht0 _ hin) (by simp [ExtCall.isChainReg])
    | ok v2 =>
      refine ⟨v1, v2, rfl, rfl, ?_⟩
      cases hr : env.registerResult with
      | error er =>
        simp only [registerCore, uploadJSONToIPFS, h1, h2, hr] at hin
        simp at hin
        rcases hin with hin | hin
        · exact absurd (ht0 _ hin) (by simp [ExtCall.isChainReg])
        · exact hin
      | ok r =>
        obtain ⟨v, hsv⟩ := updateSupabase_never_raises env.supabase img
          ("https://aeneid.explorer.story.foundation/ipa/" ++ r.ipId) r.txHash
        simp only [registerCore, uploadJSONToIPFS, h1, h2, hr, hsv] at hin
        simp at hin
        rcases hin with hin | hin | hin
        · exact absurd (ht0 _ hin) (by simp [ExtCall.isChainReg])
        · exact hin
        · have := updateSupabase_trace env.supabase img _ _ _ hin
          simp [ExtCall.isRecord] at this

/- Inversion of the core pipeline at a success response. -/
theorem registerCore_success_inv (env : Env) (req : Request) (img dev : String)
    (fdm : JVal) (fee : Int) (rs : JsNum) (nc : String) (st2 : Option String)
    (t0 : List ExtCall) (d : SuccessData)
    (h : (registerCore env req img dev fdm fee rs nc st2 t0).1 =
      Response.success d) :
    ∃ r, env.registerResult = Except.ok r ∧
      d = mkSuccessData req img fdm fee rs nc r := by
  cases h1 : env.upload1 with
  | error e1 =>
    simp only [registerCore, uploadJSONToIPFS, h1] at h
    exact absurd h (by simp)
  | ok v1 =>
    cases h2 : env.upload2 with
    | error e2 =>
      simp only [registerCore, uploadJSONToIPFS, h1, h2] at h
      exact absurd h (by simp)
    | ok v2 =>
      cases hr : env.registerResult with
      | error er =>
        simp only [registerCore, uploadJSONToIPFS, h1, h2, hr] at h
        exact absurd h (by simp)
      | ok r =>
        obtain ⟨v, hsv⟩ := updateSupabase_never_raises env.supabase img
          ("https://aeneid.explorer.story.foundation/ipa/" ++ r.ipId) r.txHash
        simp only [registerCore, uploadJSONToIPFS, h1, h2, hr, hsv] at h
        refine ⟨r, rfl, ?_⟩
        injection h with h'
        exact h'.symm

/- When the register call succeeds, the core pipeline answers success. -/
theorem registerCore_reg_ok (env : Env) (req : Request) (img dev : String)
    (fdm : JVal) (fee : Int) (rs : JsNum) (nc : String) (st2 : Option String)
    (t0 : List ExtCall) (v1 v2 : String) (r : RegResult)
    (h1 : env.upload1 = Except.ok v1) (h2 : env.upload2 = Except.ok v2)
    (hr : env.registerResult = Except.ok r) :
    (registerCore env req img dev fdm fee rs nc st2 t0).1 =
      Response.success (mkSuccessData req img fdm fee rs nc r) := by
  obtain ⟨v, hsv⟩ := updateSupabase_never_raises env.supabase img
    ("https://aeneid.explorer.story.foundation/ipa/" ++ r.ipId) r.txHash
  simp only [registerCore, uploadJSONToIPFS, h1, h2, hr, hsv]

/- The first publish of the core pipeline always carries the serialized
asset metadata document, whatever happens afterwards. -/
theorem registerCore_trace_head (env : Env) (req : Request) (img dev : String)
    (fdm : JVal) (fee : Int) (rs : JsNum) (nc : String) (st2 : Option String)
    (t0 : List ExtCall) :
    ∃ rest, (registerCore env req img dev fdm fee rs nc st2 t0).2.2 =
      t0 ++ ExtCall.publish (env.stringifyIp
        (buildIpMetadata env img req.metadataCid dev)) :: rest := by
  cases h1 : env.upload1 with
  | error e1 => exact ⟨[], by simp [registerCore, uploadJSONToIPFS, h1]⟩
  | ok v1 =>
    cases h2 : env.upload2 with
    | error e2 =>
      exact ⟨[ExtCall.publish (env.stringifyNft
        (buildNftMetadata env img req.metadataCid dev))],
        by simp [registerCore, uploadJSONToIPFS, h1, h2, List.append_assoc]⟩
    | ok v2 =>
      cases hr : env.registerResult with
      | error er =>
        exact ⟨[ExtCall.publish (env.stringifyNft
            (buildNftMetadata env img req.metadataCid dev)),
          ExtCall.chainRegister (mkRegisterArgs env req img dev fee rs nc v1 v2)],
          by simp [registerCore, uploadJSONToIPFS, h1, h2, hr, List.append_assoc]⟩
      | ok r =>
        obtain ⟨v, hsv⟩ := updateSupabase_never_raises env.supabase img
          ("https://aeneid.explorer.story.foundation/ipa/" ++ r.ipId) r.txHash
        exact ⟨[ExtCall.publish (env.stringifyNft
            (buildNftMetadata env img req.metadataCid dev)),
          ExtCall.chainRegister (mkRegisterArgs env req img dev fee rs nc v1 v2)] ++
          (updateSupabaseWithIPData env.supabase img
            ("https://aeneid.explorer.story.foundation/ipa/" ++ r.ipId)
            r.txHash).2,
          by simp [registerCore, uploadJSONToIPFS, h1, h2, hr, hsv,
            List.append_assoc]⟩

/- Inversion of the whole handler at a chain registration call: validation
passed, the fee parsed, the collection resolved, both uploads succeeded,
the arguments are those of the run, and a successful register call makes
the run answer success. -/
theorem registerIp_core_inv (env : Env) (st : Option String) (req : Request)
    (args : RegisterArgs)
    (hin : ExtCall.chainRegister args ∈ (registerIp env st req).2.2) :
    ∃ fee nc h1 h2,
      env.parseEther (feeInput env req) = Except.ok fee ∧
      (getOrCreateCollection env st).1 = Except.ok nc ∧
      env.upload1 = Except.ok h1 ∧ env.upload2 = Except.ok h2 ∧
      args = mkRegisterArgs env req (req.imageCid.getD "")
        (req.deviceAddress.getD "") fee (resolveRevShare env req) nc h1 h2 ∧
      ∀ r, env.registerResult = Except.ok r →
        (registerIp env st req).1 = Response.success
          (mkSuccessData req (req.imageCid.getD "") (resolveDepth env req).1
            fee (resolveRevShare env req) nc r) := by
  by_cases hb : (!truthyS req.imageCid || !truthyS req.deviceAddress) = true
  · unfold registerIp at hin
    rw [if_pos hb] at hin
    simp at hin
  · unfold registerIp at hin
    rw [if_neg hb] at hin
    cases hpe : env.parseEther (feeInput env req) with
    | error e =>
      rw [hpe] at hin
      dsimp only at hin
      have := resolveDepth_trace env req _ hin
      simp [ExtCall.isFetch] at this
    | ok fee =>
      rw [hpe] at hin
      dsimp only at hin
      by_cases hrs : (jsLtInt (resolveRevShare env req) 0 ||
          jsGtInt (resolveRevShare env req) 100) = true
      · rw [if_pos hrs] at hin
        dsimp only at hin
        have := resolveDepth_trace env req _ hin
        simp [ExtCall.isFetch] at this
      · rw [if_neg hrs] at hin
        cases hcol : (getOrCreateCollection env st).1 with
        | error e =>
          rw [hcol] at hin
          dsimp only at hin
          rw [List.mem_append] at hin
          rcases hin with hin | hin
          · have := resolveDepth_trace env req _ hin
            simp [ExtCall.isFetch] at this
          · rcases getOrCreateCollection_trace env st with h | h
            · rw [h] at hin; simp at hin
            · rw [h] at hin; simp at hin
        | ok nc =>
          rw [hcol] at hin
          dsimp only at hin
          have ht0 : ∀ e ∈ (resolveDepth env req).2 ++
              (getOrCreateCollection env st).2.2, e.isChainReg = false := by
            intro e he
            rw [List.mem_append] at he
            rcases he with he | he
            · have := resolveDepth_trace env req e he
              cases e <;> simp_all [ExtCall.isFetch, ExtCall.isChainReg]
            · rcases getOrCreateCollection_trace env st with h | h
              · rw [h] at he; simp at he
              · rw [h] at he; simp at he; subst he; rfl
          obtain ⟨h1, h2, hu1, hu2, hargs⟩ :=
            registerCore_chainReg_inv env req _ _ _ fee _ nc _ _ args ht0 hin
          refine ⟨fee, nc, h1, h2, rfl, rfl, hu1, hu2, hargs, ?_⟩
          clear hin
          intro r hr
          have hR : (registerIp env st req).1 =
              (registerCore env req (req.imageCid.getD "")
                (req.deviceAddress.getD "") (resolveDepth env req).1 fee
                (resolveRevShare env req) nc
                (getOrCreateCollection env st).2.1
                ((resolveDepth env req).2 ++
                  (getOrCreateCollection env st).2.2)).1 := by
            unfold registerIp
            rw [if_neg hb, hpe]
            dsimp only
            rw [if_neg hrs, hcol]
          rw [hR]
          exact registerCore_reg_ok env req _ _ _ fee _ nc _ _ h1 h2 r hu1 hu2 hr

/- Inversion of the whole handler at a success response. -/
theorem registerIp_success_inv (env : Env) (st : Option String) (req : Request)
    (d : SuccessData)
    (h : (registerIp env st req).1 = Response.success d) :
    ∃ fee nc r, env.parseEther (feeInput env req) = Except.ok fee ∧
      (getOrCreateCollection env st).1 = Except.ok nc ∧
      env.registerResult = Except.ok r ∧
      d = mkSuccessData req (req.imageCid.getD "") (resolveDepth env req).1
        fee (resolveRevShare env req) nc r ∧
      (registerIp env st req).2.1 = some nc := by
  by_cases hb : (!truthyS req.imageCid || !truthyS req.deviceAddress) = true
  · unfold registerIp at h
    rw [if_pos hb] at h
    exact absurd h (by simp)
  · unfold registerIp at h ⊢
    rw [if_neg hb] at h ⊢
    cases hpe : env.parseEther (feeInput env req) with
    | error e =>
      rw [hpe] at h
      dsimp only at h
      exact absurd h (by simp)
    | ok fee =>
      rw [hpe] at h
      dsimp only at h
      dsimp only
      by_cases hrs : (jsLtInt (resolveRevShare env req) 0 ||
          jsGtInt (resolveRevShare env req) 100) = true
      · rw [if_pos hrs] at h
        dsimp only at h
        exact absurd h (by simp)
      · rw [if_neg hrs] at h ⊢
        cases hcol : (getOrCreateCollection env st).1 with
        | error e =>
          rw [hcol] at h
          dsimp only at h
          exact absurd h (by simp)
        | ok nc =>
          rw [hcol] at h
          dsimp only at h
          dsimp only
          obtain ⟨r, hr, hd⟩ :=
            registerCore_success_inv env req _ _ _ fee _ nc _ _ d h
          refine ⟨fee, nc, r, rfl, rfl, hr, hd, ?_⟩
          rw [registerCore_st]
          exact getOrCreateCollection_ok_state env st nc hcol

/- The handler issues at most as many creation transactions as the
provisioning step, and the rest of the run issues none. -/
theorem registerIp_countCreate_eq (env : Env) (st : Option String)
    (req : Request) :
    countCreate (registerIp env st req).2.2 =
      countCreate (getOrCreateCollection env st).2.2 ∨
    countCreate (registerIp env st req).2.2 = 0 := by
  have hdm : countCreate (resolveDepth env req).2 = 0 :=
    countCreate_fetch_zero _ (resolveDepth_trace env req)
  unfold registerIp
  by_cases hb : (!truthyS req.imageCid || !truthyS req.deviceAddress) = true
  · rw [if_pos hb]; right; rfl
  · rw [if_neg hb]
    cases hpe : env.parseEther (feeInput env req) with
    | error e => dsimp only; right; exact hdm
    | ok fee =>
      dsimp only
      by_cases hrs : (jsLtInt (resolveRevShare env req) 0 ||
          jsGtInt (resolveRevShare env req) 100) = true
      · rw [if_pos hrs]; right; exact hdm
      · rw [if_neg hrs]
        cases hcol : (getOrCreateCollection env st).1 with
        | error e =>
          dsimp only
          left
          rw [countCreate_append, hdm, Nat.zero_add]
        | ok nc =>
          dsimp only
          left
          rw [registerCore_countCreate, countCreate_append, hdm, Nat.zero_add]

/- Inversion of the whole handler at a publish call: validation passed and
the response of the run is the response of the core pipeline. -/
theorem registerIp_publish_inv (env : Env) (st : Option String) (req : Request)
    (b : String)
    (hin : ExtCall.publish b ∈ (registerIp env st req).2.2) :
    ∃ fee nc, env.parseEther (feeInput env req) = Except.ok fee ∧
      (getOrCreateCollection env st).1 = Except.ok nc ∧
      (registerIp env st req).1 = (registerCore env req (req.imageCid.getD "")
        (req.deviceAddress.getD "") (resolveDepth env req).1 fee
        (resolveRevShare env req) nc (getOrCreateCollection env st).2.1
        ((resolveDepth env req).2 ++ (getOrCreateCollection env st).2.2)).1 := by
  by_cases hb : (!truthyS req.imageCid || !truthyS req.deviceAddress) = true
  · unfold registerIp at hin
    rw [if_pos hb] at hin
    simp at hin
  · unfold registerIp at hin
    rw [if_neg hb] at hin
    cases hpe : env.parseEther (feeInput env req) with
    | error e =>
      rw [hpe] at hin
      dsimp only at hin
      have := resolveDepth_trace env req _ hin
      simp [ExtCall.isFetch] at this
    | ok fee =>
      rw [hpe] at hin
      dsimp only at hin
      by_cases hrs : (jsLtInt (resolveRevShare env req) 0 ||
          jsGtInt (resolveRevShare env req) 100) = true
      · rw [if_pos hrs] at hin
        dsimp only at hin
        have := resolveDepth_trace env req _ hin
        simp [ExtCall.isFetch] at this
      · rw [if_neg hrs] at hin
        cases hcol : (getOrCreateCollection env st).1 with
        | error e =>
          rw [hcol] at hin
          dsimp only at hin
          rw [List.mem_append] at hin
          rcases hin with hin | hin
          · have := resolveDepth_trace env req _ hin
            simp [ExtCall.isFetch] at this
          · rcases getOrCreateCollection_trace env st with h | h
            · rw [h] at hin; simp at hin
            · rw [h] at hin; simp at hin
        | ok nc =>
          refine ⟨fee, nc, rfl, rfl, ?_⟩
          unfold registerIp
          rw [if_neg hb, hpe]
          dsimp only
          rw [if_neg hrs, hcol]

/- A revenue-share rejection can only come from the range check. -/
theorem registerIp_reject_inv (env : Env) (st : Option String) (req : Request)
    (h : (registerIp env st req).1.isRevShareReject = true) :
    (jsLtInt (resolveRevShare env req) 0 ||
      jsGtInt (resolveRevShare env req) 100) = true := by
  by_cases hb : (!truthyS req.imageCid || !truthyS req.deviceAddress) = true
  · unfold registerIp at h
    rw [if_pos hb] at h
    simp [Response.isRevShareReject] at h
  · unfold registerIp at h
    rw [if_neg hb] at h
    cases hpe : env.parseEther (feeInput env req) with
    | error e =>
      rw [hpe] at h
      dsimp only at h
      simp [Response.isRevShareReject] at h
    | ok fee =>
      rw [hpe] at h
      dsimp only at h
      by_cases hrs : (jsLtInt (resolveRevShare env req) 0 ||
          jsGtInt (resolveRevShare env req) 100) = true
      · exact hrs
      · rw [if_neg hrs] at h
        cases hcol : (getOrCreateCollection env st).1 with
        | error e =>
          rw [hcol] at h
          dsimp only at h
          simp [Response.isRevShareReject] at h
        | ok nc =>
          rw [hcol] at h
          dsimp only at h
          rw [(registerCore_no_reject _ _ _ _ _ _ _ _ _ _).1] at h
          exact absurd h (by simp)

/-- Claim C1 (amended): a request missing imageCid or deviceAddress is
rejected with the missing-fields 400 before any external call is issued
(the trace is empty); a revenue-share rejection is issued before any
publish, chain or record store call, but a storage fetch may already have
been issued at that point — every call in the trace of a revenue-share
rejection is a gateway fetch. -/
theorem C1_validation_order (env : Env) (st : Option String) (req : Request) :
    ((truthyS req.imageCid = false ∨ truthyS req.deviceAddress = false) →
      (registerIp env st req).1 = Response.missingFields ∧
      (registerIp env st req).2.2 = []) ∧
    (∀ v, (registerIp env st req).1 = Response.revShareOutOfRange v →
      ∀ e ∈ (registerIp env st req).2.2, e.isFetch = true) := by
  constructor
  · intro h
    have hb : (!truthyS req.imageCid || !truthyS req.deviceAddress) = true := by
      rcases h with h | h <;> simp [h]
    unfold registerIp
    rw [if_pos hb]
    exact ⟨rfl, rfl⟩
  · intro v hv e he
    rcases hrr : registerIp env st req with ⟨resp, stOut, tr⟩
    rw [hrr] at hv he
    dsimp only at hv he
    unfold registerIp at hrr
    split at hrr
    · simp only [Prod.mk.injEq] at hrr
      rw [← hrr.1] at hv
      exact Response.noConfusion hv
    · split at hrr
      · simp only [Prod.mk.injEq] at hrr
        rw [← hrr.1] at hv
        exact Response.noConfusion hv
      · split at hrr
        · -- revenue-share rejection: the trace is the depth resolution trace
          simp only [Prod.mk.injEq] at hrr
          rw [← hrr.2.2] at he
          exact resolveDepth_trace env req e he
        · split at hrr
          · simp only [Prod.mk.injEq] at hrr
            rw [← hrr.1] at hv
            exact Response.noConfusion hv
          · rw [hv] at hrr
            have hC := congrArg (fun p => (Prod.fst p).isRevShareReject) hrr
            dsimp only at hC
            rw [(registerCore_no_reject _ _ _ _ _ _ _ _ _ _).1] at hC
            exact absurd hC.symm (by simp [Response.isRevShareReject])

/-- Witness: C1_validation_order instantiated at a request missing its
imageCid, and at the revenue-share rejection of reqC1. -/
theorem C1_validation_order_witness :
    ((registerIp cEnv none reqMissing).1 = Response.missingFields ∧
      (registerIp cEnv none reqMissing).2.2 = []) ∧
    (∀ e ∈ (registerIp cEnv none reqC1).2.2, e.isFetch = true) :=
  ⟨(C1_validation_order cEnv none reqMissing).1 (Or.inl rfl),
   (C1_validation_order cEnv none reqC1).2 (JsNum.num 101) rfl⟩

/-- Claim C1 as stated is false: this otherwise-valid request with an
out-of-range commercialRevShare of 101 is rejected with a 400, yet an
external call (the storage fetch of metadataContentId) has already been
issued before the rejection — the trace of the run is not empty. -/
theorem C1_counterexample :
    (registerIp cEnv none reqC1).1.rejectValue = some (JsNum.num 101) ∧
    (registerIp cEnv none reqC1).2.2 =
      [ExtCall.fetch "https://gateway.pinata.cloud/ipfs/Qmeta1"] :=
  ⟨rfl, rfl⟩

/-- Claim C10: a commercialRevShare whose parseInt is NaN (here the string
abc) passes the range validation — both comparisons against NaN are false
— and the run reaches chain registration with the NaN value as the
resolved revenue share, which is also echoed in the success response. -/
theorem C10_nan_revshare_passes :
    parseIntJs "abc" = JsNum.nan ∧
    (registerIp cEnv none reqC10).1.isSuccess = true ∧
    respRevShare (registerIp cEnv none reqC10).1 = some JsNum.nan ∧
    ExtCall.chainRegister
      { spgNftContract := "0xCollection", revShare := JsNum.nan,
        mintingFeeWei := 100000000000000000,
        ipMetadataURI := "https://ipfs.io/ipfs/QmIpMeta",
        ipMetadataHash := "0xhIP:DeepShare Evidence - 1700000000000",
        nftMetadataURI := "https://ipfs.io/ipfs/QmNftMeta",
        nftMetadataHash := "0xhNFT:DeepShare Evidence 1700000000001" }
      ∈ (registerIp cEnv none reqC10).2.2 :=
  ⟨rfl, rfl, rfl, by decide⟩

/-- Claim C2: the record reconciler never raises — for every input and every
record store outcome, the catch block swallows the error and a value is
returned — and the HTTP response of the pipeline is success with a
populated RegistrationResult whenever the chain registration itself
succeeded, whatever the record store did. -/
theorem C2_reconciler_never_raises (s : SupabaseEnv) (a b c : String)
    (env : Env) (st : Option String) (req : Request) (args : RegisterArgs)
    (r : RegResult) :
    (∃ v, (updateSupabaseWithIPData s a b c).1 = Except.ok v) ∧
    (ExtCall.chainRegister args ∈ (registerIp env st req).2.2 →
      env.registerResult = Except.ok r →
      ∃ d, (registerIp env st req).1 = Response.success d ∧
        d.ipId = r.ipId ∧ d.txHash = r.txHash ∧
        d.explorerUrl =
          "https://aeneid.explorer.story.foundation/ipa/" ++ r.ipId ∧
        d.transactionUrl = "https://aeneid.storyscan.io/tx/" ++ r.txHash) := by
  refine ⟨updateSupabase_never_raises s a b c, fun hin hreg => ?_⟩
  obtain ⟨fee, nc, h1, h2, hpe, hcol, hu1, hu2, hargs, hresp⟩ :=
    registerIp_core_inv env st req args hin
  exact ⟨_, hresp r hreg, rfl, rfl, rfl, rfl⟩

/-- Witness: C2_reconciler_never_raises instantiated on a concrete run that
reaches a successful chain registration. -/
theorem C2_witness :
    (∃ v, (updateSupabaseWithIPData cEnv.supabase "Qimg1" "u" "t").1 =
      Except.ok v) ∧
    ∃ d, (registerIp cEnv none reqOk).1 = Response.success d ∧
      d.ipId = regR.ipId ∧ d.txHash = regR.txHash ∧
      d.explorerUrl =
        "https://aeneid.explorer.story.foundation/ipa/" ++ regR.ipId ∧
      d.transactionUrl = "https://aeneid.storyscan.io/tx/" ++ regR.txHash := by
  have h := C2_reconciler_never_raises cEnv.supabase "Qimg1" "u" "t"
    cEnv none reqOk argsOk regR
  exact ⟨h.1, h.2 (by decide) rfl⟩

/-- Claim C3 as stated is false: in this request both depthMetadata and
metadataContentId are supplied, the environment would deliver a fetched
payload carrying a depthData of points 3, yet the inline depthMetadata is
what the success response echoes, and no fetch is issued at all. -/
theorem C3_counterexample :
    respDepth (registerIp cEnv none reqC3).1 =
      some (JVal.obj [("inline", JVal.num 1)]) ∧
    (registerIp cEnv none reqC3).2.2.all (fun e => !e.isFetch) = true :=
  ⟨rfl, rfl⟩

/-- Claim C3 (amended): the inline depthMetadata supersedes the
metadataContentId payload, not the reverse — whenever the request carries a
truthy inline depthMetadata, no fetch is issued, the inline payload is the
effective depth metadata, and it is what a success response echoes; the
payload resolved from metadataContentId is used only when the inline field
is absent or falsy. -/
theorem C3_inline_supersedes (env : Env) (st : Option String) (req : Request)
    (h : jvTruthyO req.depthMetadata = true) :
    (resolveDepth env req).1 = req.depthMetadata.getD JVal.null ∧
    (resolveDepth env req).2 = [] ∧
    (∀ d, (registerIp env st req).1 = Response.success d →
      d.depthMetadata = req.depthMetadata.getD JVal.null) := by
  have hcond : (truthyS req.metadataCid && !jvTruthyO req.depthMetadata)
      = false := by
    rw [h]
    simp
  have hstep : resolveDepthStep env req = (req.depthMetadata, []) := by
    unfold resolveDepthStep
    rw [hcond]
    simp
  have h1 : resolveDepth env req = (req.depthMetadata.getD JVal.null, []) := by
    unfold resolveDepth
    rw [hstep]
    dsimp only
    rw [show jvTruthyO (req.depthMetadata) = true from h]
    simp
  refine ⟨by rw [h1], by rw [h1], ?_⟩
  intro d hd
  obtain ⟨fee, nc, r, _, _, _, hdm, _⟩ := registerIp_success_inv env st req d hd
  rw [hdm]
  show (resolveDepth env req).1 = _
  rw [h1]

/-- Witness: C3_inline_supersedes instantiated at reqC3. -/
theorem C3_witness :
    (resolveDepth cEnv reqC3).1 = reqC3.depthMetadata.getD JVal.null ∧
    (resolveDepth cEnv reqC3).2 = [] ∧
    (∀ d, (registerIp cEnv none reqC3).1 = Response.success d →
      d.depthMetadata = reqC3.depthMetadata.getD JVal.null) :=
  C3_inline_supersedes cEnv none reqC3 rfl

/-- Claim C4 as stated is false: in this run the first publish fails and
the run aborts with the wrapped upload error, but a chain call — the
collection creation transaction — has already been made in the same run. -/
theorem C4_counterexample :
    (registerIp envC4 none reqOk).1 =
      Response.serverError "Failed to upload JSON to IPFS: boom" ∧
    ExtCall.chainCreateCollection ∈ (registerIp envC4 none reqOk).2.2 :=
  ⟨rfl, by decide⟩

/-- Claim C4 (amended): a publish failure is fatal — the run returns the
wrapped upload error and no asset-registration chain call is ever issued in
that run; when the collection handle was already cached, no chain call at
all precedes the abort (the whole trace is fetches and publishes); only the
collection-creation transaction, issued before the first publish, may
already have happened. -/
theorem C4_publish_failure (env : Env) (st : Option String) (req : Request)
    (e : String)
    (hf : env.upload1 = Except.error e ∨
      ((∃ v1, env.upload1 = Except.ok v1) ∧ env.upload2 = Except.error e)) :
    (∀ args, ExtCall.chainRegister args ∉ (registerIp env st req).2.2) ∧
    ((∃ b, ExtCall.publish b ∈ (registerIp env st req).2.2) →
      (registerIp env st req).1 =
        Response.serverError ("Failed to upload JSON to IPFS: " ++ e)) ∧
    (∀ c, st = some c →
      ∀ x ∈ (registerIp env st req).2.2,
        x.isFetch = true ∨ x.isPublish = true) := by
  refine ⟨?_, ?_, ?_⟩
  · intro args hin
    obtain ⟨fee, nc, h1, h2, hpe, hcol, hu1, hu2, _, _⟩ :=
      registerIp_core_inv env st req args hin
    rcases hf with hf | ⟨⟨v1, hv1⟩, hf2⟩
    · rw [hf] at hu1
      exact Except.noConfusion hu1
    · rw [hf2] at hu2
      exact Except.noConfusion hu2
  · rintro ⟨b, hb⟩
    obtain ⟨fee, nc, hpe, hcol, hresp⟩ := registerIp_publish_inv env st req b hb
    rw [hresp]
    rcases hf with hf | ⟨⟨v1, hv1⟩, hf2⟩
    · simp [registerCore, uploadJSONToIPFS, hf]
    · simp [registerCore, uploadJSONToIPFS, hv1, hf2]
  · rintro c rfl x hx
    unfold registerIp at hx
    by_cases hb : (!truthyS req.imageCid || !truthyS req.deviceAddress) = true
    · rw [if_pos hb] at hx
      simp at hx
    · rw [if_neg hb] at hx
      cases hpe : env.parseEther (feeInput env req) with
      | error er =>
        rw [hpe] at hx
        dsimp only at hx
        exact Or.inl (resolveDepth_trace env req _ hx)
      | ok fee =>
        rw [hpe] at hx
        dsimp only at hx
        by_cases hrs : (jsLtInt (resolveRevShare env req) 0 ||
            jsGtInt (resolveRevShare env req) 100) = true
        · rw [if_pos hrs] at hx
          dsimp only at hx
          exact Or.inl (resolveDepth_trace env req _ hx)
        · rw [if_neg hrs] at hx
          rw [show (getOrCreateCollection env (some c)).1 = Except.ok c from rfl]
            at hx
          dsimp only at hx
          rcases hf with hf | ⟨⟨v1, hv1⟩, hf2⟩
          · simp only [registerCore, uploadJSONToIPFS, hf] at hx
            simp only [getOrCreateCollection] at hx
            simp at hx
            rcases hx with hx | hx
            · exact Or.inl (resolveDepth_trace env req _ hx)
            · subst hx
              exact Or.inr rfl
          · simp only [registerCore, uploadJSONToIPFS, hv1, hf2] at hx
            simp only [getOrCreateCollection] at hx
            simp at hx
            rcases hx with hx | hx | hx
            · exact Or.inl (resolveDepth_trace env req _ hx)
            · subst hx
              exact Or.inr rfl
            · subst hx
              exact Or.inr rfl

/-- Witness: C4_publish_failure instantiated on a run with a cached
collection handle and a failing first publish. -/
theorem C4_witness :
    (∀ args, ExtCall.chainRegister args ∉
      (registerIp envC4 (some "0xCol0") reqOk).2.2) ∧
    (registerIp envC4 (some "0xCol0") reqOk).1 =
      Response.serverError ("Failed to upload JSON to IPFS: " ++ "boom") ∧
    (∀ x ∈ (registerIp envC4 (some "0xCol0") reqOk).2.2,
      x.isFetch = true ∨ x.isPublish = true) := by
  have h := C4_publish_failure envC4 (some "0xCol0") reqOk "boom" (Or.inl rfl)
  exact ⟨h.1, h.2.1 ⟨"IP:DeepShare Evidence - 1700000000000", by decide⟩,
    h.2.2 "0xCol0" rfl⟩

/-- Claim C5: on an otherwise-valid request, a commercialRevShare of -1 or
101 is rejected with the 400 range rejection, while 0 and 100 pass the
validation and the parsed value is the resolved revenue share, bound into
the chain registration call and echoed in a success response. -/
theorem C5_revshare_bounds (env : Env) (st : Option String) (req : Request)
    (himg : truthyS req.imageCid = true)
    (hdev : truthyS req.deviceAddress = true)
    (hfee : ∃ f, env.parseEther (feeInput env req) = Except.ok f) :
    ((req.commercialRevShare = some "-1" ∨
        req.commercialRevShare = some "101") →
      (registerIp env st req).1.isRevShareReject = true) ∧
    ((req.commercialRevShare = some "0" ∨
        req.commercialRevShare = some "100") →
      (registerIp env st req).1.isRevShareReject = false ∧
      (∀ args, ExtCall.chainRegister args ∈ (registerIp env st req).2.2 →
        args.revShare = parseIntJs (req.commercialRevShare.getD "")) ∧
      (∀ d, (registerIp env st req).1 = Response.success d →
        d.commercialRevShare =
          parseIntJs (req.commercialRevShare.getD ""))) := by
  obtain ⟨f, hf⟩ := hfee
  have hb : (!truthyS req.imageCid || !truthyS req.deviceAddress) = false := by
    simp [himg, hdev]
  constructor
  · intro hcrs
    have hcond : (jsLtInt (resolveRevShare env req) 0 ||
        jsGtInt (resolveRevShare env req) 100) = true := by
      rcases hcrs with h | h <;> simp [resolveRevShare, h] <;> decide
    simp [registerIp, hb, hf, hcond, Response.isRevShareReject]
  · intro hcrs
    have hval : resolveRevShare env req =
        parseIntJs (req.commercialRevShare.getD "") := by
      rcases hcrs with h | h <;> simp [resolveRevShare, h]
    have hcond : (jsLtInt (resolveRevShare env req) 0 ||
        jsGtInt (resolveRevShare env req) 100) = false := by
      rcases hcrs with h | h <;> rw [hval] <;> simp [h] <;> decide
    refine ⟨?_, ?_, ?_⟩
    · cases hB : (registerIp env st req).1.isRevShareReject
      · rfl
      · have := registerIp_reject_inv env st req hB
        rw [hcond] at this
        exact Bool.noConfusion this
    · intro args hin
      obtain ⟨fee, nc, h1, h2, hpe, hcol, hu1, hu2, hargs, _⟩ :=
        registerIp_core_inv env st req args hin
      rw [hargs]
      show resolveRevShare env req = _
      exact hval
    · intro d hd
      obtain ⟨fee, nc, r, _, _, _, hdm, _⟩ :=
        registerIp_success_inv env st req d hd
      rw [hdm]
      show resolveRevShare env req = _
      exact hval

/-- Witness: C5_revshare_bounds instantiated at -1, 101, 0 and 100. -/
theorem C5_witness :
    (registerIp cEnv none reqNeg1).1.isRevShareReject = true ∧
    (registerIp cEnv none req101).1.isRevShareReject = true ∧
    (registerIp cEnv none reqZero).1.isRevShareReject = false ∧
    (registerIp cEnv none reqHundred).1.isRevShareReject = false :=
  ⟨(C5_revshare_bounds cEnv none reqNeg1 rfl rfl ⟨_, rfl⟩).1 (Or.inl rfl),
   (C5_revshare_bounds cEnv none req101 rfl rfl ⟨_, rfl⟩).1 (Or.inr rfl),
   ((C5_revshare_bounds cEnv none reqZero rfl rfl ⟨_, rfl⟩).2 (Or.inl rfl)).1,
   ((C5_revshare_bounds cEnv none reqHundred rfl rfl ⟨_, rfl⟩).2
     (Or.inr rfl)).1⟩

/-- Claim C6: the image-hash field of the asset metadata document is 0x
followed by the digest of the raw image content identifier string; the
media-hash field is the digest of the raw metadata content identifier
string, or of the image identifier again when no metadata id is present;
the field is a pure function of the digest function and the image id
(deterministic); and the hashes bound into the chain registration are the
digests of the serialized asset document and serialized collectible
document respectively. -/
theorem C6_digest_fields (env : Env) (st : Option String) (req : Request)
    (img dev : String) (mcid : Option String) (env2 : Env)
    (mcid2 : Option String) (dev2 : String) (args : RegisterArgs) :
    (buildIpMetadata env img mcid dev).imageHash = "0x" ++ env.sha256hex img ∧
    (buildIpMetadata env img mcid dev).mediaHash =
      (if truthyS mcid then "0x" ++ env.sha256hex (mcid.getD "")
       else "0x" ++ env.sha256hex img) ∧
    (env2.sha256hex = env.sha256hex →
      (buildIpMetadata env2 img mcid2 dev2).imageHash =
        (buildIpMetadata env img mcid dev).imageHash) ∧
    (ExtCall.chainRegister args ∈ (registerIp env st req).2.2 →
      args.ipMetadataHash = "0x" ++ env.sha256hex (env.stringifyIp
        (buildIpMetadata env (req.imageCid.getD "") req.metadataCid
          (req.deviceAddress.getD ""))) ∧
      args.nftMetadataHash = "0x" ++ env.sha256hex (env.stringifyNft
        (buildNftMetadata env (req.imageCid.getD "") req.metadataCid
          (req.deviceAddress.getD "")))) := by
  refine ⟨rfl, ?_, ?_, ?_⟩
  · by_cases h : truthyS mcid = true <;> simp [buildIpMetadata, h]
  · intro hsha
    show "0x" ++ env2.sha256hex img = "0x" ++ env.sha256hex img
    rw [hsha]
  · intro hin
    obtain ⟨fee, nc, h1, h2, hpe, hcol, hu1, hu2, hargs, _⟩ :=
      registerIp_core_inv env st req args hin
    rw [hargs]
    exact ⟨rfl, rfl⟩

/-- Witness: C6_digest_fields instantiated at a concrete run, with the
membership and determinism hypotheses discharged. -/
theorem C6_witness :
    (buildIpMetadata cEnv "Qimg1" none "0xABC").imageHash =
      "0x" ++ cEnv.sha256hex "Qimg1" ∧
    (buildIpMetadata cEnv "Qimg1" (some "Qmeta1") "0xDEF").imageHash =
      (buildIpMetadata cEnv "Qimg1" none "0xABC").imageHash ∧
    argsOk.ipMetadataHash = "0x" ++ cEnv.sha256hex (cEnv.stringifyIp
      (buildIpMetadata cEnv "Qimg1" none "0xABC")) ∧
    argsOk.nftMetadataHash = "0x" ++ cEnv.sha256hex (cEnv.stringifyNft
      (buildNftMetadata cEnv "Qimg1" none "0xABC")) := by
  have h := C6_digest_fields cEnv none reqOk "Qimg1" "0xABC" none cEnv
    (some "Qmeta1") "0xDEF" argsOk
  have h4 := h.2.2.2 (by decide)
  exact ⟨h.1, h.2.2.1 rfl, h4.1, h4.2⟩

/-- Claim C7: when the fetch of metadataContentId fails, the failure is
recoverable — the effective depth metadata falls back to the minimal
placeholder object carrying the metadata content id, a success response
echoes that placeholder, and the run still proceeds to build and publish
the asset metadata document: its serialized form is the very next external
call after the failed fetch. -/
theorem C7_fetch_failure_recoverable (env : Env) (st : Option String)
    (req : Request) (c e : String) (f : Int)
    (hm : truthyS req.metadataCid = true)
    (hd : jvTruthyO req.depthMetadata = false)
    (hfe : env.fetchResult = Except.error e)
    (himg : truthyS req.imageCid = true)
    (hdev : truthyS req.deviceAddress = true)
    (hfee : env.parseEther (feeInput env req) = Except.ok f)
    (hrs : (jsLtInt (resolveRevShare env req) 0 ||
      jsGtInt (resolveRevShare env req) 100) = false)
    (hst : st = some c) :
    resolveDepth env req =
      (JVal.obj [("metadataCid", JVal.str (req.metadataCid.getD ""))],
       [ExtCall.fetch (env.gateway ++ "/ipfs/" ++ req.metadataCid.getD "")]) ∧
    (∀ d, (registerIp env st req).1 = Response.success d →
      d.depthMetadata =
        JVal.obj [("metadataCid", JVal.str (req.metadataCid.getD ""))]) ∧
    ∃ rest, (registerIp env st req).2.2 =
      ExtCall.fetch (env.gateway ++ "/ipfs/" ++ req.metadataCid.getD "") ::
      ExtCall.publish (env.stringifyIp (buildIpMetadata env
        (req.imageCid.getD "") req.metadataCid (req.deviceAddress.getD ""))) ::
      rest := by
  have hcond : (truthyS req.metadataCid && !jvTruthyO req.depthMetadata)
      = true := by
    rw [hm, hd]
    rfl
  have hres : resolveDepth env req =
      (JVal.obj [("metadataCid", JVal.str (req.metadataCid.getD ""))],
       [ExtCall.fetch (env.gateway ++ "/ipfs/" ++ req.metadataCid.getD "")]) := by
    have hstep : resolveDepthStep env req =
        (some (JVal.obj [("metadataCid", JVal.str (req.metadataCid.getD ""))]),
         [ExtCall.fetch (env.gateway ++ "/ipfs/" ++ req.metadataCid.getD "")]) := by
      unfold resolveDepthStep fetchFromIPFS
      rw [hcond, hfe]
      simp
    unfold resolveDepth
    rw [hstep]
    simp [jvTruthyO, jvTruthy]
  have hb : (!truthyS req.imageCid || !truthyS req.deviceAddress) = false := by
    simp [himg, hdev]
  refine ⟨hres, ?_, ?_⟩
  · intro d hdres
    obtain ⟨fee, nc, r, _, _, _, hdm, _⟩ :=
      registerIp_success_inv env st req d hdres
    rw [hdm]
    show (resolveDepth env req).1 = _
    rw [hres]
  · subst hst
    unfold registerIp
    rw [hb]
    simp only [Bool.false_eq_true, if_false]
    rw [hfee]
    dsimp only
    rw [if_neg (by rw [hrs]; simp)]
    rw [show (getOrCreateCollection env (some c)).1 = Except.ok c from rfl]
    dsimp only
    obtain ⟨rest, hrest⟩ := registerCore_trace_head env req
      (req.imageCid.getD "") (req.deviceAddress.getD "")
      (resolveDepth env req).1 f (resolveRevShare env req) c
      (getOrCreateCollection env (some c)).2.1
      ((resolveDepth env req).2 ++ (getOrCreateCollection env (some c)).2.2)
    refine ⟨rest, ?_⟩
    rw [hrest]
    rw [show (getOrCreateCollection env (some c)).2.2 = ([] : List ExtCall)
      from rfl]
    rw [hres]
    simp

/-- Witness: C7_fetch_failure_recoverable instantiated on a concrete run
whose gateway fetch fails. -/
theorem C7_witness :
    resolveDepth envC7 reqC7 =
      (JVal.obj [("metadataCid", JVal.str (reqC7.metadataCid.getD ""))],
       [ExtCall.fetch (envC7.gateway ++ "/ipfs/" ++ reqC7.metadataCid.getD "")]) ∧
    (∀ d, (registerIp envC7 (some "0xCol0") reqC7).1 = Response.success d →
      d.depthMetadata =
        JVal.obj [("metadataCid", JVal.str (reqC7.metadataCid.getD ""))]) ∧
    ∃ rest, (registerIp envC7 (some "0xCol0") reqC7).2.2 =
      ExtCall.fetch (envC7.gateway ++ "/ipfs/" ++ reqC7.metadataCid.getD "") ::
      ExtCall.publish (envC7.stringifyIp (buildIpMetadata envC7
        (reqC7.imageCid.getD "") reqC7.metadataCid
        (reqC7.deviceAddress.getD ""))) :: rest :=
  C7_fetch_failure_recoverable envC7 (some "0xCol0") reqC7 "0xCol0"
    "gateway down" 100000000000000000 rfl rfl rfl rfl rfl rfl (by decide) rfl

/-- Claim C8: the collection is created at most once per process lifetime —
a provisioning call with a cached handle is a pure cache hit issuing no
transaction, and across two sequential successful registrations the second
run reuses the first run's handle, issues no creation transaction of its
own, and the two runs together issue at most one creation transaction. -/
theorem C8_collection_cached (env1 env2 : Env) (req1 req2 : Request)
    (st : Option String) (d1 d2 : SuccessData)
    (h1 : (registerIp env1 st req1).1 = Response.success d1)
    (h2 : (registerIp env2 (registerIp env1 st req1).2.1 req2).1 =
      Response.success d2) :
    (∀ env c, getOrCreateCollection env (some c) = (Except.ok c, some c, [])) ∧
    d2.nftContract = d1.nftContract ∧
    countCreate (registerIp env2 (registerIp env1 st req1).2.1 req2).2.2 = 0 ∧
    countCreate ((registerIp env1 st req1).2.2 ++
      (registerIp env2 (registerIp env1 st req1).2.1 req2).2.2) ≤ 1 := by
  obtain ⟨fee1, nc1, r1, _, hcol1, _, hd1, hst1⟩ :=
    registerIp_success_inv env1 st req1 d1 h1
  obtain ⟨fee2, nc2, r2, _, hcol2, _, hd2, hst2⟩ :=
    registerIp_success_inv env2 _ req2 d2 h2
  have hnc2 : nc2 = nc1 := by
    rw [hst1, getOrCreateCollection_cached] at hcol2
    simp at hcol2
    exact hcol2.symm
  have hrun2 : countCreate
      (registerIp env2 (registerIp env1 st req1).2.1 req2).2.2 = 0 := by
    rcases registerIp_countCreate_eq env2 (registerIp env1 st req1).2.1 req2
      with h | h
    · rw [h, hst1, getOrCreateCollection_cached]
      rfl
    · exact h
  have hrun1 : countCreate (registerIp env1 st req1).2.2 ≤ 1 := by
    rcases registerIp_countCreate_eq env1 st req1 with h | h
    · rw [h]
      rcases getOrCreateCollection_trace env1 st with hh | hh <;> rw [hh] <;>
        decide
    · rw [h]
      decide
  refine ⟨fun env c => rfl, ?_, hrun2, ?_⟩
  · rw [hd1, hd2, hnc2]
    rfl
  · rw [countCreate_append, hrun2]
    omega

/-- Witness: C8_collection_cached instantiated on two sequential successful
runs of the concrete environment. -/
theorem C8_witness :
    sd1.nftContract = sd1.nftContract ∧
    countCreate (registerIp cEnv (registerIp cEnv none reqOk).2.1 reqOk).2.2
      = 0 ∧
    countCreate ((registerIp cEnv none reqOk).2.2 ++
      (registerIp cEnv (registerIp cEnv none reqOk).2.1 reqOk).2.2) ≤ 1 := by
  have h := C8_collection_cached cEnv cEnv reqOk reqOk none sd1 sd1 rfl rfl
  exact ⟨h.2.1, h.2.2.1, h.2.2.2⟩

/-- Claim C9: the asset metadata document's media type is application/json
exactly when a metadata content id is present (truthy) in the request, and
image/jpeg otherwise. -/
theorem C9_media_type (env : Env) (img dev : String) (mcid : Option String) :
    ((buildIpMetadata env img mcid dev).mediaType = "application/json" ↔
      truthyS mcid = true) ∧
    (truthyS mcid = false →
      (buildIpMetadata env img mcid dev).mediaType = "image/jpeg") := by
  by_cases h : truthyS mcid = true <;> simp [buildIpMetadata, h]

/-- Witness: C9_media_type instantiated with and without a metadata id. -/
theorem C9_witness :
    ((buildIpMetadata cEnv "Qimg1" (some "Qmeta1") "0xABC").mediaType =
      "application/json" ↔ truthyS (some "Qmeta1") = true) ∧
    (buildIpMetadata cEnv "Qimg1" none "0xABC").mediaType = "image/jpeg" :=
  ⟨(C9_media_type cEnv "Qimg1" "0xABC" (some "Qmeta1")).1,
   (C9_media_type cEnv "Qimg1" "0xABC" none).2 rfl⟩

end StoryServer
